import Mathlib

/-!
Verification of the S3 client wrapper (`src/s3_client.py`).

The development shallowly embeds the Python module: pure computations become
Lean functions, the boto3 SDK becomes an abstract backend record whose calls
return `Except SdkError`, logging becomes an explicit list of log entries
produced by each operation, and the local filesystem becomes an explicit
association of paths to byte contents.  Python truthiness (`x or y`,
`if x:`) is modelled faithfully: the empty string is falsy.
-/

namespace S3Spec

/-- Bytes of an object, modelled as a list of byte values. -/
abbrev Bytes := List Nat

/-- Truthiness of a Python value of type `Optional[str]`: `None` and the
empty string are falsy, every other string is truthy. -/
def truthy : Option String → Bool
  | some s => !(s == "")
  | none => false

/-- Python `x or d` where `x : Optional[str]` and `d` is a plain string
(e.g. the result of `os.getenv(name, default)`). -/
def pyOrString (x : Option String) (d : String) : String :=
  if truthy x then x.getD "" else d

/-- Python `x or y` where both operands are `Optional[str]`
(e.g. `aws_access_key_id or os.getenv("AWS_ACCESS_KEY_ID")`). -/
def pyOrOption (x y : Option String) : Option String :=
  if truthy x then x else y

/-! ## Logger facility (`setup_logging`, `get_logger`) -/

/-- Module-level constant `LOG_FILE` (the rotating log file path). -/
def LOG_FILE : String := "logs/s3_client.log"

/-- Module-level constant `LOG_FORMAT`. -/
def LOG_FORMAT : String := "%(asctime)s | %(levelname)-8s | %(name)s | %(message)s"

/-- Module-level constant `DATE_FORMAT`. -/
def DATE_FORMAT : String := "%Y-%m-%d %H:%M:%S"

/-- A `logging.Formatter` with its format string and date format. -/
structure Formatter where
  fmt : String
  datefmt : String
deriving DecidableEq, Repr

/-- An output sink attached to a logger: either a `RotatingFileHandler`
(path, rotation threshold, retained backups, encoding, level, formatter) or a
console `StreamHandler` (level, formatter). -/
inductive Handler where
  | rotatingFile (path : String) (maxBytes backupCount : Nat)
      (encoding : String) (level : Nat) (formatter : Formatter)
  | stream (level : Nat) (formatter : Formatter)
deriving DecidableEq, Repr

/-- A named logger: its name, its level and its attached handlers. -/
structure Logger where
  name : String
  level : Nat
  handlers : List Handler
deriving DecidableEq, Repr

/-- `logging.INFO`. -/
def INFO : Nat := 20

/-- `setup_logging(level, log_to_file, log_to_console, max_bytes, backup_count)`
applied to the current state of the named logger `logging.getLogger("s3_client")`:
sets the level, clears the previously attached handlers
(`logger.handlers.clear()`), then attaches a rotating file handler when
`log_to_file` and a console handler when `log_to_console`, both at the given
level and sharing one formatter. -/
def setup_logging (logger : Logger) (level : Nat)
    (log_to_file log_to_console : Bool)
    (max_bytes backup_count : Nat) : Logger :=
  let formatter : Formatter := { fmt := LOG_FORMAT, datefmt := DATE_FORMAT }
  let handlers0 : List Handler := []
  let handlers1 :=
    if log_to_file then
      handlers0 ++ [Handler.rotatingFile LOG_FILE max_bytes backup_count "utf-8" level formatter]
    else handlers0
  let handlers2 :=
    if log_to_console then
      handlers1 ++ [Handler.stream level formatter]
    else handlers1
  { name := logger.name, level := level, handlers := handlers2 }

/-- `setup_logging()` with all defaults, as performed by the first call to
`get_logger`: `level=logging.INFO`, `log_to_file=True`, `log_to_console=True`,
`max_bytes=5*1024*1024`, `backup_count=3`. -/
def defaultLoggerOf (registry : Logger) : Logger :=
  setup_logging registry INFO true true (5 * 1024 * 1024) 3

/-- `get_logger()`: the global `_logger : Optional[Logger]` is the state.
If it is `None`, the first call runs `setup_logging()` with defaults on the
registry's named logger, stores and returns the result; otherwise the stored
logger is returned and the state is unchanged. -/
def get_logger (registry : Logger) : Option Logger → Logger × Option Logger
  | none => (defaultLoggerOf registry, some (defaultLoggerOf registry))
  | some l => (l, some l)

/-! ## Configuration resolution (`S3Client.__init__`) -/

/-- The environment variables read by the constructor
(`os.getenv`; `none` means the variable is unset). -/
structure Env where
  AWS_REGION : Option String
  AWS_ACCESS_KEY_ID : Option String
  AWS_SECRET_ACCESS_KEY : Option String
  AWS_ENDPOINT_URL : Option String
deriving DecidableEq, Repr

/-- The configuration values after the constructor's fallback lines:
`region_name = region_name or os.getenv("AWS_REGION", "ru-central1")` and the
analogous `or os.getenv(...)` lines for the two credentials and the endpoint. -/
structure ResolvedConfig where
  region_name : String
  aws_access_key_id : Option String
  aws_secret_access_key : Option String
  endpoint_url : Option String
deriving DecidableEq, Repr

/-- The constructor's resolution of the four optional configuration values
from explicit arguments and the environment. -/
def resolveConfig (env : Env)
    (region_name aws_access_key_id aws_secret_access_key endpoint_url : Option String) :
    ResolvedConfig :=
  { region_name := pyOrString region_name (env.AWS_REGION.getD "ru-central1"),
    aws_access_key_id := pyOrOption aws_access_key_id env.AWS_ACCESS_KEY_ID,
    aws_secret_access_key := pyOrOption aws_secret_access_key env.AWS_SECRET_ACCESS_KEY,
    endpoint_url := pyOrOption endpoint_url env.AWS_ENDPOINT_URL }

/-- The keyword arguments passed to `boto3.Session`: always the region, and
the two credentials exactly when the constructor's
`if aws_access_key_id and aws_secret_access_key:` test succeeds
(Python truthiness: both must be non-empty strings). -/
structure SessionKwargs where
  region_name : String
  credentials : Option (String × String)
deriving DecidableEq, Repr

/-- Builds the `boto3.Session` keyword arguments from the resolved
configuration. -/
def buildSessionKwargs (cfg : ResolvedConfig) : SessionKwargs :=
  if truthy cfg.aws_access_key_id && truthy cfg.aws_secret_access_key then
    { region_name := cfg.region_name,
      credentials := some (cfg.aws_access_key_id.getD "", cfg.aws_secret_access_key.getD "") }
  else
    { region_name := cfg.region_name, credentials := none }

/-! ## Listing data model (`list_objects`) -/

/-- A raw object entry of a `list_objects_v2` page, as a dictionary:
`Key` is always present (the code indexes `obj["Key"]`), while `Size`,
`LastModified` and `ETag` are accessed with `.get` and may be absent.
Timestamps are modelled as natural numbers. -/
structure RawObject where
  Key : String
  Size : Option Nat
  LastModified : Option Nat
  ETag : Option String
deriving DecidableEq, Repr

/-- One page returned by the paginator: a dictionary whose `Contents` entry
may be absent (the code reads `page.get("Contents", [])`). -/
structure Page where
  Contents : Option (List RawObject)
deriving DecidableEq, Repr

/-- The record `list_objects` appends per raw entry: exactly the fields
`Key`, `Size`, `LastModified`, `ETag`, where `Size` is a plain integer
(defaulted) and the other two optional fields pass through as possibly-null. -/
structure ListingEntry where
  Key : String
  Size : Nat
  LastModified : Option Nat
  ETag : Option String
deriving DecidableEq, Repr

/-- The dictionary built for one raw entry inside the paginate loop:
`{"Key": obj["Key"], "Size": obj.get("Size", 0),
"LastModified": obj.get("LastModified"), "ETag": obj.get("ETag")}`. -/
def rawToEntry (obj : RawObject) : ListingEntry :=
  { Key := obj.Key,
    Size := obj.Size.getD 0,
    LastModified := obj.LastModified,
    ETag := obj.ETag }

/-! ## SDK backend and errors -/

/-- An exception raised by a boto3/botocore call.  `isClientError` records
whether the exception is a `botocore.exceptions.ClientError` (the only kind
the wrapper's `except` clauses catch); network-level failures such as
`EndpointConnectionError` are `BotoCoreError`s, not `ClientError`s. -/
structure SdkError where
  isClientError : Bool
  code : String
  msg : String
deriving DecidableEq, Repr

/-- The response of `head_object`, with the fields the wrapper reads via
`.get` (each may be absent). -/
structure HeadResponse where
  ContentLength : Option Nat
  LastModified : Option Nat
  ContentType : Option String
  ETag : Option String
deriving DecidableEq, Repr

/-- The normalized metadata dictionary returned by `get_object_metadata`. -/
structure ObjectMetadata where
  ContentLength : Option Nat
  LastModified : Option Nat
  ContentType : Option String
  ETag : Option String
deriving DecidableEq, Repr

/-- The boto3 S3 client as an opaque capability provider.  Each field is one
SDK call the wrapper delegates to; a call either returns its result or raises
an `SdkError`.  `paginate` takes bucket, prefix string, max keys and
delimiter and yields the full page sequence; `downloadFile` and `getObject`
take bucket and key and yield the object's bytes; `generatePresignedUrl`
takes the method name, bucket, key and expiration; `headObject` takes bucket
and key. -/
structure S3Backend where
  paginate : String → String → Nat → String → Except SdkError (List Page)
  downloadFile : String → String → Except SdkError Bytes
  getObject : String → String → Except SdkError Bytes
  generatePresignedUrl : String → String → String → Nat → Except SdkError String
  headObject : String → String → Except SdkError HeadResponse

/-- The `S3Client` wrapper after construction: bound to one bucket and
holding one SDK client handle. -/
structure S3Client where
  bucket : String
  backend : S3Backend

/-! ## Logging of operations -/

/-- Log levels used by the wrapper's calls: `log.debug`, `log.info`, and
`log.exception` (which logs at error level). -/
inductive LogLevel where
  | debug
  | info
  | error
deriving DecidableEq, Repr

/-- One emitted log record: its level, its message, and, for
`log.exception`, the attached exception detail. -/
structure LogEntry where
  level : LogLevel
  msg : String
  exc : Option SdkError
deriving DecidableEq, Repr

/-- A debug record. -/
def dbgLog (m : String) : LogEntry := { level := LogLevel.debug, msg := m, exc := none }

/-- An info record. -/
def infoLog (m : String) : LogEntry := { level := LogLevel.info, msg := m, exc := none }

/-- A `log.exception` record: error level, carrying the full exception. -/
def excLog (m : String) (e : SdkError) : LogEntry :=
  { level := LogLevel.error, msg := m, exc := some e }

/-- Whether a log record is at error level. -/
def isErrorLevel : LogLevel → Bool
  | LogLevel.error => true
  | _ => false

/-- The exception payloads of the error-level records of a log, in order:
used to state that a failure is logged exactly once and with full detail. -/
def errorPayloads (log : List LogEntry) : List (Option SdkError) :=
  (log.filter (fun en => isErrorLevel en.level)).map (fun en => en.exc)

/-! ## Local paths and filesystem (`download_file`) -/

/-- A relative POSIX path as its `pathlib` components: `PurePosixPath.parts`
with empty and `.` components dropped. -/
abbrev PathC := List String

/-- Splits a character list at every slash, like Python `s.split("/")`. -/
def splitSlash : List Char → List (List Char)
  | [] => [[]]
  | ch :: rest =>
    match splitSlash rest with
    | [] => [[]]
    | w :: ws => if ch = Char.ofNat 47 then [] :: w :: ws else (ch :: w) :: ws

/-- `pathlib.Path(s)` reduced to its components: the slash-separated pieces
with empty and `.` pieces dropped, as `PurePosixPath.parts` does. -/
def parsePath (s : String) : PathC :=
  ((splitSlash s.data).map (fun w => String.mk w)).filter (fun c => c != "" && c != ".")

/-- `pathlib.Path(s).name`: the final path component, or the empty string
when there is none. -/
def pathName (s : String) : String :=
  (parsePath s).getLast?.getD ""

/-- All ancestors of a path (every component-prefix, the path itself
included), as created by `mkdir(parents=True, exist_ok=True)`. -/
def pathAncestors : PathC → List PathC
  | [] => [[]]
  | c :: rest => [] :: (pathAncestors rest).map (fun q => c :: q)

/-- The local filesystem: the set of existing directories and the files with
their byte contents. -/
structure FS where
  dirs : List PathC
  files : List (PathC × Bytes)
deriving Repr

/-- The empty filesystem. -/
def FS.empty : FS := { dirs := [], files := [] }

/-- `p.mkdir(parents=True, exist_ok=True)`: creates `p` and its ancestors. -/
def FS.mkdirParents (fs : FS) (p : PathC) : FS :=
  { fs with dirs := pathAncestors p ++ fs.dirs }

/-- Writing a file at a path (the SDK's managed transfer writing the
downloaded object). -/
def FS.write (fs : FS) (p : PathC) (d : Bytes) : FS :=
  { fs with files := (p, d) :: fs.files.filter (fun f => f.1 != p) }

/-- Reading the bytes of the file at a path, when it exists. -/
def FS.read (fs : FS) (p : PathC) : Option Bytes :=
  (fs.files.find? (fun f => f.1 == p)).map (fun f => f.2)

/-- The destination resolution of `download_file`:
`local_path = Path(local_path) if local_path else None` (truthiness),
`local_dir = Path(local_dir) if local_dir else Path(".")`, and when
`local_path` ends up `None`, `local_path = local_dir / Path(key).name`. -/
def resolveDownloadPath (key : String) (local_path local_dir : Option String) : PathC :=
  let lp : Option PathC :=
    if truthy local_path then some (parsePath (local_path.getD "")) else none
  let ld : PathC :=
    if truthy local_dir then parsePath (local_dir.getD "") else parsePath "."
  match lp with
  | some p => p
  | none => ld ++ [pathName key]

/-! ## The five operations

Each operation is a single synchronous delegation to the backend wrapped in
try/log/re-raise.  An operation returns the list of log records it emitted
together with `Except.ok` its result or `Except.error` the propagated
exception.  The `except ClientError` clause only matches client errors: a
backend failure with `isClientError = false` propagates without the
`log.exception` record. -/

/-- `S3Client.list_objects(prefix, max_keys, delimiter)`: logs a debug line,
paginates `list_objects_v2` with `Delimiter=delimiter or ""`, appends one
record per raw entry of each page's `Contents` (absent `Contents` meaning no
entries), logs the entry count and returns the materialized list; a
`ClientError` is logged via `log.exception` and re-raised. -/
def list_objects (c : S3Client) (pfx : String) (max_keys : Nat)
    (delimiter : Option String) : List LogEntry × Except SdkError (List ListingEntry) :=
  let dbg := dbgLog "list_objects: prefix, max_keys"
  match c.backend.paginate c.bucket pfx max_keys (pyOrString delimiter "") with
  | Except.ok pages =>
      let result := (pages.map (fun page => (page.Contents.getD []).map rawToEntry)).flatten
      ([dbg, infoLog "list_objects: records received"], Except.ok result)
  | Except.error e =>
      (dbg :: (if e.isClientError then [excLog "list_objects error" e] else []),
        Except.error e)

/-- `S3Client.download_file(key, local_path, local_dir)`: resolves the
destination path, creates its parent directories, logs the destination,
streams the object to the destination via the SDK's managed transfer, logs
the resulting size and returns the resolved path; a `ClientError` is logged
via `log.exception` and re-raised.  The filesystem is threaded explicitly. -/
def download_file (c : S3Client) (fs : FS) (key : String)
    (local_path local_dir : Option String) :
    FS × List LogEntry × Except SdkError PathC :=
  let p := resolveDownloadPath key local_path local_dir
  let fs1 := fs.mkdirParents p.dropLast
  let entry := infoLog "download_file: key and destination"
  match c.backend.downloadFile c.bucket key with
  | Except.ok data =>
      (fs1.write p data, [entry, infoLog "download_file: success, size"], Except.ok p)
  | Except.error e =>
      (fs1, entry :: (if e.isClientError then [excLog "download_file error" e] else []),
        Except.error e)

/-- `S3Client.download_file_to_buffer(key)`: logs a debug line, issues
`get_object`, reads the full body into memory, logs the byte count and
returns the bytes; a `ClientError` is logged via `log.exception` and
re-raised. -/
def download_file_to_buffer (c : S3Client) (key : String) :
    List LogEntry × Except SdkError Bytes :=
  let dbg := dbgLog "download_file_to_buffer: key"
  match c.backend.getObject c.bucket key with
  | Except.ok data =>
      ([dbg, infoLog "download_file_to_buffer: key, size"], Except.ok data)
  | Except.error e =>
      (dbg :: (if e.isClientError then [excLog "download_file_to_buffer error" e] else []),
        Except.error e)

/-- `S3Client.get_presigned_url(key, expiration, method)`: logs a debug line,
delegates to `generate_presigned_url` with the method name, bucket, key and
expiration, logs success and returns the URL; a `ClientError` is logged via
`log.exception` and re-raised. -/
def get_presigned_url (c : S3Client) (key : String) (expiration : Nat)
    (method : String) : List LogEntry × Except SdkError String :=
  let dbg := dbgLog "get_presigned_url: key, expiration"
  match c.backend.generatePresignedUrl method c.bucket key expiration with
  | Except.ok url =>
      ([dbg, infoLog "get_presigned_url: generated"], Except.ok url)
  | Except.error e =>
      (dbg :: (if e.isClientError then [excLog "get_presigned_url error" e] else []),
        Except.error e)

/-- `S3Client.get_object_metadata(key)`: logs a debug line, issues
`head_object`, returns the normalized subset of fields and logs the content
length; a `ClientError` is logged via `log.exception` and re-raised. -/
def get_object_metadata (c : S3Client) (key : String) :
    List LogEntry × Except SdkError ObjectMetadata :=
  let dbg := dbgLog "get_object_metadata: key"
  match c.backend.headObject c.bucket key with
  | Except.ok r =>
      let meta : ObjectMetadata :=
        { ContentLength := r.ContentLength,
          LastModified := r.LastModified,
          ContentType := r.ContentType,
          ETag := r.ETag }
      ([dbg, infoLog "get_object_metadata: key, size"], Except.ok meta)
  | Except.error e =>
      (dbg :: (if e.isClientError then [excLog "get_object_metadata error" e] else []),
        Except.error e)

/-! ## A concrete backend over a fixed object store -/

/-- The `NoSuchKey` client error. -/
def noSuchKey : SdkError :=
  { isClientError := true, code := "NoSuchKey", msg := "The specified key does not exist." }

/-- A backend holding a fixed store of objects (key to bytes): both transfer
calls (`download_file`, `get_object`) deliver the stored bytes of an existing
key and raise `NoSuchKey` otherwise.  Used to relate the two download paths,
which the real backend serves from the same stored object. -/
def storeBackend (store : String → Option Bytes) : S3Backend :=
  { paginate := fun _ _ _ _ => Except.ok [],
    downloadFile := fun _ key =>
      match store key with
      | some d => Except.ok d
      | none => Except.error noSuchKey,
    getObject := fun _ key =>
      match store key with
      | some d => Except.ok d
      | none => Except.error noSuchKey,
    generatePresignedUrl := fun _ _ _ _ => Except.ok "",
    headObject := fun _ _ => Except.error noSuchKey }

/-- An `S3Client` over a fixed object store. -/
def storeClient (bucket : String) (store : String → Option Bytes) : S3Client :=
  { bucket := bucket, backend := storeBackend store }

/-! ## Theorems -/

/-- C5: re-invoking `setup_logging` on the same named logger first clears the
previously attached handlers, so a second configuration yields exactly the
logger a single configuration would have produced — re-configuration is
idempotent, not additive, and in particular the set of attached sinks after
the second call is what one call attaches, so no output line is duplicated. -/
theorem setup_logging_reconfig_overwrites (l : Logger)
    (lv1 lv2 mb1 mb2 bc1 bc2 : Nat) (tf1 tc1 tf2 tc2 : Bool) :
    setup_logging (setup_logging l lv1 tf1 tc1 mb1 bc1) lv2 tf2 tc2 mb2 bc2 =
      setup_logging l lv2 tf2 tc2 mb2 bc2 := rfl

/-- C6: the first `get_logger()` call (state `None`) configures the named
logger with the default options (`setup_logging` at level `logging.INFO`,
file and console sinks, 5 MiB rotation, 3 backups) and stores the result; a
subsequent call returns exactly the stored logger instance with the state
unchanged, performing no reconfiguration, so the second call after the first
returns the very logger the first call produced. -/
theorem get_logger_singleton (registry l : Logger) :
    get_logger registry none = (defaultLoggerOf registry, some (defaultLoggerOf registry)) ∧
    get_logger registry (some l) = (l, some l) ∧
    get_logger registry (get_logger registry none).2 =
      ((get_logger registry none).1, (get_logger registry none).2) :=
  ⟨rfl, rfl, rfl⟩

/-- C10: in the record built for a raw listing entry, only `Size` is
defaulted (to 0 when absent); `LastModified` and `ETag` pass through
unchanged, so when absent from the raw entry they are null in the returned
record rather than a timestamp or a string. -/
theorem only_size_defaulted_in_listing_entry (o : RawObject) :
    (rawToEntry o).Key = o.Key ∧
    (rawToEntry o).Size = o.Size.getD 0 ∧
    (rawToEntry o).LastModified = o.LastModified ∧
    (rawToEntry o).ETag = o.ETag :=
  ⟨rfl, rfl, rfl, rfl⟩

/-- Helper: the full result of `list_objects` when the paginator succeeds. -/
theorem list_objects_ok_eq (c : S3Client) (pfx : String) (max_keys : Nat)
    (delimiter : Option String) (pages : List Page)
    (h : c.backend.paginate c.bucket pfx max_keys (pyOrString delimiter "") = Except.ok pages) :
    list_objects c pfx max_keys delimiter =
      ([dbgLog "list_objects: prefix, max_keys", infoLog "list_objects: records received"],
        Except.ok ((pages.map (fun page => (page.Contents.getD []).map rawToEntry)).flatten)) := by
  unfold list_objects
  rw [h]

/-- C2: for every bucket, prefix, max-keys and delimiter, and every page
sequence the backend paginator returns, `list_objects` returns the
fully-materialized concatenation, in page and entry order, of one record per
raw entry holding exactly `Key`, `Size` (taken from the raw entry, defaulted
to 0 when absent), `LastModified` and `ETag`. -/
theorem list_objects_materializes_pages (c : S3Client) (pfx : String) (max_keys : Nat)
    (delimiter : Option String) (pages : List Page)
    (h : c.backend.paginate c.bucket pfx max_keys (pyOrString delimiter "") = Except.ok pages) :
    (list_objects c pfx max_keys delimiter).2 =
      Except.ok ((pages.map (fun page => (page.Contents.getD []).map (fun o =>
        ({ Key := o.Key, Size := o.Size.getD 0, LastModified := o.LastModified,
           ETag := o.ETag } : ListingEntry)))).flatten) := by
  rw [list_objects_ok_eq c pfx max_keys delimiter pages h]
  rfl

/-- Boolean string-prefix test, computed structurally on the underlying
character lists (`String.startsWith` is opaque to kernel reduction). -/
def strStartsWith (s pre : String) : Bool := pre.data.isPrefixOf s.data

/-- C8: under a backend whose paginator returns only entries matching the
prefix it was passed, every record returned by `list_objects` has a key that
starts with the given prefix. -/
theorem list_objects_keys_extend_given_pfx (c : S3Client) (pfx : String) (max_keys : Nat)
    (delimiter : Option String) (pages : List Page)
    (hp : c.backend.paginate c.bucket pfx max_keys (pyOrString delimiter "") = Except.ok pages)
    (hk : ∀ page ∈ pages, ∀ o ∈ page.Contents.getD [], strStartsWith o.Key pfx = true) :
    ∀ es, (list_objects c pfx max_keys delimiter).2 = Except.ok es →
      ∀ en ∈ es, strStartsWith en.Key pfx = true := by
  intro es hes en hen
  rw [list_objects_ok_eq c pfx max_keys delimiter pages hp] at hes
  rw [show es = (pages.map (fun page => (page.Contents.getD []).map rawToEntry)).flatten from
    (Except.ok.injEq _ _ ▸ hes).symm] at hen
  rcases List.mem_flatten.mp hen with ⟨l, hl, henl⟩
  rcases List.mem_map.mp hl with ⟨page, hpage, rfl⟩
  rcases List.mem_map.mp henl with ⟨o, ho, rfl⟩
  exact hk page hpage o ho

/-- A concrete three-page paginator response used to witness the listing
theorems: two populated pages (one entry missing `Size`, `LastModified` and
`ETag`) around a page without a `Contents` entry. -/
def pagesEx : List Page :=
  [{ Contents := some
      [{ Key := "uploads/b.txt", Size := some 10, LastModified := some 5, ETag := some "e1" },
       { Key := "uploads/c.txt", Size := none, LastModified := none, ETag := none }] },
   { Contents := none },
   { Contents := some
      [{ Key := "uploads/d.txt", Size := some 3, LastModified := some 7, ETag := some "e2" }] }]

/-- A client whose paginator returns a fixed page sequence. -/
def listingClient (pages : List Page) : S3Client :=
  { bucket := "test-bucket",
    backend := { storeBackend (fun _ => none) with paginate := fun _ _ _ _ => Except.ok pages } }

/-- Witness for C2 at the concrete page fixture. -/
theorem list_objects_materializes_pages_witness :
    (list_objects (listingClient pagesEx) "uploads/" 1000 none).2 =
      Except.ok ((pagesEx.map (fun page => (page.Contents.getD []).map (fun o =>
        ({ Key := o.Key, Size := o.Size.getD 0, LastModified := o.LastModified,
           ETag := o.ETag } : ListingEntry)))).flatten) :=
  list_objects_materializes_pages (listingClient pagesEx) "uploads/" 1000 none pagesEx rfl

/-- The materialized listing of the concrete page fixture. -/
def entriesEx : List ListingEntry :=
  [{ Key := "uploads/b.txt", Size := 10, LastModified := some 5, ETag := some "e1" },
   { Key := "uploads/c.txt", Size := 0, LastModified := none, ETag := none },
   { Key := "uploads/d.txt", Size := 3, LastModified := some 7, ETag := some "e2" }]

/-- Witness for C8 at the concrete page fixture: the first returned record's
key starts with the requested prefix. -/
theorem list_objects_keys_extend_given_pfx_witness :
    strStartsWith "uploads/b.txt" "uploads/" = true :=
  list_objects_keys_extend_given_pfx (listingClient pagesEx) "uploads/" 1000 none pagesEx
    rfl (by decide) entriesEx rfl
    { Key := "uploads/b.txt", Size := 10, LastModified := some 5, ETag := some "e1" }
    (by decide)

/-- An environment with all four variables set, used to exercise the
configuration-resolution theorems. -/
def envW : Env :=
  { AWS_REGION := some "us-east-1",
    AWS_ACCESS_KEY_ID := some "EAK",
    AWS_SECRET_ACCESS_KEY := some "ESK",
    AWS_ENDPOINT_URL := some "http://env-endpoint" }

/-- C7 counterexample: an explicitly supplied empty-string region is NOT
used as given — Python `or` treats the empty string as falsy, so the
environment value wins over the explicit argument. -/
theorem explicit_empty_region_overridden_counterexample :
    (resolveConfig envW (some "") none none none).region_name = "us-east-1" ∧
    (resolveConfig envW (some "") none none none).region_name ≠ "" :=
  ⟨rfl, by decide⟩

/-- C7 amended: a non-empty explicitly supplied constructor argument is used
as given, and an argument left unset falls back to the environment value
(the region further defaulting to `ru-central1` when `AWS_REGION` is unset);
an explicitly supplied empty string, being falsy, also falls back. -/
theorem config_resolution_amended (env : Env) (rg ak sk ep : Option String) :
    (∀ s, rg = some s → s ≠ "" → (resolveConfig env rg ak sk ep).region_name = s) ∧
    (rg = none →
      (resolveConfig env rg ak sk ep).region_name = env.AWS_REGION.getD "ru-central1") ∧
    (∀ s, ak = some s → s ≠ "" →
      (resolveConfig env rg ak sk ep).aws_access_key_id = some s) ∧
    (ak = none →
      (resolveConfig env rg ak sk ep).aws_access_key_id = env.AWS_ACCESS_KEY_ID) ∧
    (∀ s, sk = some s → s ≠ "" →
      (resolveConfig env rg ak sk ep).aws_secret_access_key = some s) ∧
    (sk = none →
      (resolveConfig env rg ak sk ep).aws_secret_access_key = env.AWS_SECRET_ACCESS_KEY) ∧
    (∀ s, ep = some s → s ≠ "" →
      (resolveConfig env rg ak sk ep).endpoint_url = some s) ∧
    (ep = none →
      (resolveConfig env rg ak sk ep).endpoint_url = env.AWS_ENDPOINT_URL) := by
  refine ⟨?_, ?_, ?_, ?_, ?_, ?_, ?_, ?_⟩
  · intro s h hs; subst h; simp [resolveConfig, pyOrString, truthy, hs]
  · intro h; subst h; simp [resolveConfig, pyOrString, truthy]
  · intro s h hs; subst h; simp [resolveConfig, pyOrOption, truthy, hs]
  · intro h; subst h; simp [resolveConfig, pyOrOption, truthy]
  · intro s h hs; subst h; simp [resolveConfig, pyOrOption, truthy, hs]
  · intro h; subst h; simp [resolveConfig, pyOrOption, truthy]
  · intro s h hs; subst h; simp [resolveConfig, pyOrOption, truthy, hs]
  · intro h; subst h; simp [resolveConfig, pyOrOption, truthy]

/-- Witness for the amended C7: non-empty explicit arguments override the
fully populated environment, and unset arguments fall back to it. -/
theorem config_resolution_amended_witness :
    (resolveConfig envW (some "eu-west-1") (some "AK") (some "SK") (some "http://minio")).region_name
      = "eu-west-1" ∧
    (resolveConfig envW none none none none).region_name = "us-east-1" ∧
    (resolveConfig envW (some "eu-west-1") (some "AK") (some "SK") (some "http://minio")).aws_access_key_id
      = some "AK" ∧
    (resolveConfig envW none none none none).aws_access_key_id = some "EAK" ∧
    (resolveConfig envW (some "eu-west-1") (some "AK") (some "SK") (some "http://minio")).aws_secret_access_key
      = some "SK" ∧
    (resolveConfig envW none none none none).aws_secret_access_key = some "ESK" ∧
    (resolveConfig envW (some "eu-west-1") (some "AK") (some "SK") (some "http://minio")).endpoint_url
      = some "http://minio" ∧
    (resolveConfig envW none none none none).endpoint_url = some "http://env-endpoint" := by
  have h1 := config_resolution_amended envW (some "eu-west-1") (some "AK") (some "SK")
    (some "http://minio")
  have h2 := config_resolution_amended envW none none none none
  exact ⟨h1.1 _ rfl (by decide), h2.2.1 rfl,
    h1.2.2.1 _ rfl (by decide), h2.2.2.2.1 rfl,
    h1.2.2.2.2.1 _ rfl (by decide), h2.2.2.2.2.2.1 rfl,
    h1.2.2.2.2.2.2.1 _ rfl (by decide), h2.2.2.2.2.2.2.2 rfl⟩

/-- C9: the two credentials are forwarded to the SDK session only when both
are present (truthy) after fallback resolution; whenever either resolves to
nothing, the session keyword arguments carry no explicit credentials. -/
theorem credentials_forwarded_only_when_both_present (env : Env)
    (rg ak sk ep : Option String) :
    (∀ a b,
      (buildSessionKwargs (resolveConfig env rg ak sk ep)).credentials = some (a, b) →
        (resolveConfig env rg ak sk ep).aws_access_key_id = some a ∧
        (resolveConfig env rg ak sk ep).aws_secret_access_key = some b) ∧
    ((resolveConfig env rg ak sk ep).aws_access_key_id = none ∨
     (resolveConfig env rg ak sk ep).aws_secret_access_key = none →
       (buildSessionKwargs (resolveConfig env rg ak sk ep)).credentials = none) := by
  set cfg := resolveConfig env rg ak sk ep with hcfg
  constructor
  · intro a b hab
    cases hak : cfg.aws_access_key_id with
    | none =>
        exfalso
        unfold buildSessionKwargs at hab
        rw [hak] at hab
        simp [truthy] at hab
    | some s =>
        cases hsk : cfg.aws_secret_access_key with
        | none =>
            exfalso
            unfold buildSessionKwargs at hab
            rw [hsk] at hab
            simp [truthy] at hab
        | some t =>
            unfold buildSessionKwargs at hab
            rw [hak, hsk] at hab
            by_cases hs : s = ""
            · subst hs; simp [truthy] at hab
            · by_cases ht : t = ""
              · subst ht; simp [truthy] at hab
              · simp [truthy, hs, ht] at hab
                exact ⟨by rw [hab.1], by rw [hab.2]⟩
  · intro h
    unfold buildSessionKwargs
    rcases h with h | h <;> rw [h] <;> simp [truthy]

/-- An environment supplying only the access key id, not the secret. -/
def envOnlyAK : Env :=
  { AWS_REGION := none, AWS_ACCESS_KEY_ID := some "EAK",
    AWS_SECRET_ACCESS_KEY := none, AWS_ENDPOINT_URL := none }

/-- Witness for C9: with both credentials resolved the session keyword
arguments carry exactly those two values, and with only the access key
supplied they carry no credentials. -/
theorem credentials_forwarded_witness :
    ((resolveConfig envW none none none none).aws_access_key_id = some "EAK" ∧
     (resolveConfig envW none none none none).aws_secret_access_key = some "ESK") ∧
    (buildSessionKwargs (resolveConfig envOnlyAK none none none none)).credentials = none :=
  ⟨(credentials_forwarded_only_when_both_present envW none none none none).1 "EAK" "ESK" rfl,
   (credentials_forwarded_only_when_both_present envOnlyAK none none none none).2 (Or.inr rfl)⟩

/-- A fixed object store holding one five-byte object at key `a.txt`. -/
def storeEx : String → Option Bytes :=
  fun k => if k = "a.txt" then some [104, 101, 108, 108, 111] else none

/-- C4 counterexample: with the explicitly supplied empty string as
`local_path`, `download_file` does not resolve the destination to that path
— Python truthiness treats it as absent, so the destination falls back to
`local_dir / basename(key)` (here `./a.txt`). -/
theorem download_file_empty_local_path_counterexample :
    (download_file (storeClient "test-bucket" storeEx) FS.empty "a.txt" (some "") none).2.2 =
      Except.ok ["a.txt"] ∧
    (["a.txt"] : PathC) ≠ parsePath "" :=
  ⟨rfl, by decide⟩

/-- C4 amended: `download_file` resolves its destination as `local_path`
when a non-empty `local_path` is given; when `local_path` is unset (or
empty, which truthiness treats as unset) the destination is `local_dir`
(defaulting to the current directory when unset or empty) joined with the
basename of the key; the destination's parent directories are created, and
on a successful transfer the resolved path is returned. -/
theorem download_file_path_resolution_amended (c : S3Client) (fs : FS) (key : String)
    (local_path local_dir : Option String) :
    (∀ s, local_path = some s → s ≠ "" →
      resolveDownloadPath key local_path local_dir = parsePath s) ∧
    (local_path = none →
      resolveDownloadPath key local_path local_dir =
        (if truthy local_dir then parsePath (local_dir.getD "") else parsePath ".") ++
          [pathName key]) ∧
    (∀ q ∈ pathAncestors (resolveDownloadPath key local_path local_dir).dropLast,
      q ∈ (download_file c fs key local_path local_dir).1.dirs) ∧
    (∀ data, c.backend.downloadFile c.bucket key = Except.ok data →
      (download_file c fs key local_path local_dir).2.2 =
        Except.ok (resolveDownloadPath key local_path local_dir)) := by
  refine ⟨?_, ?_, ?_, ?_⟩
  · intro s h hs; subst h; simp [resolveDownloadPath, truthy, hs]
  · intro h; subst h; simp [resolveDownloadPath, truthy, parsePath]
  · intro q hq
    unfold download_file
    cases c.backend.downloadFile c.bucket key with
    | ok data => simpa [FS.mkdirParents, FS.write] using Or.inl hq
    | error e => simpa [FS.mkdirParents] using Or.inl hq
  · intro data h
    unfold download_file
    rw [h]

/-- Witness for the amended C4: a non-empty explicit path is used as given;
with no explicit path the key's basename lands inside the (created)
`downloads` directory and the resolved path is returned. -/
theorem download_file_path_resolution_amended_witness :
    resolveDownloadPath "a.txt" (some "/tmp/out/x.bin") none = parsePath "/tmp/out/x.bin" ∧
    resolveDownloadPath "a.txt" none (some "downloads") =
      (if truthy (some "downloads") then parsePath ((some "downloads").getD "")
       else parsePath ".") ++ [pathName "a.txt"] ∧
    (["downloads"] : PathC) ∈
      (download_file (storeClient "test-bucket" storeEx) FS.empty "a.txt"
        none (some "downloads")).1.dirs ∧
    (download_file (storeClient "test-bucket" storeEx) FS.empty "a.txt"
        none (some "downloads")).2.2 =
      Except.ok (resolveDownloadPath "a.txt" none (some "downloads")) := by
  have h1 := download_file_path_resolution_amended (storeClient "test-bucket" storeEx)
    FS.empty "a.txt" (some "/tmp/out/x.bin") none
  have h2 := download_file_path_resolution_amended (storeClient "test-bucket" storeEx)
    FS.empty "a.txt" none (some "downloads")
  exact ⟨h1.1 _ rfl (by decide), h2.2.1 rfl,
    h2.2.2.1 ["downloads"] (by decide),
    h2.2.2.2 [104, 101, 108, 108, 111] rfl⟩

/-- Reading back the file just written returns exactly the written bytes. -/
theorem FS.read_write (fs : FS) (p : PathC) (d : Bytes) :
    (fs.write p d).read p = some d := by
  simp [FS.read, FS.write]

/-- C3: for a key present in the backend's object store, downloading with
`download_file` and then reading the bytes of the file at the returned local
path yields exactly the byte sequence `download_file_to_buffer` returns for
that key: both download paths deliver the stored object's bytes. -/
theorem download_roundtrip_matches_buffer (bucket : String)
    (store : String → Option Bytes) (key : String) (data : Bytes)
    (h : store key = some data) (fs : FS) (local_path local_dir : Option String) :
    (download_file (storeClient bucket store) fs key local_path local_dir).2.2 =
      Except.ok (resolveDownloadPath key local_path local_dir) ∧
    FS.read (download_file (storeClient bucket store) fs key local_path local_dir).1
      (resolveDownloadPath key local_path local_dir) = some data ∧
    (download_file_to_buffer (storeClient bucket store) key).2 = Except.ok data := by
  refine ⟨?_, ?_, ?_⟩
  · unfold download_file
    simp [storeClient, storeBackend, h]
  · unfold download_file
    simp [storeClient, storeBackend, h, FS.read_write]
  · unfold download_file_to_buffer
    simp [storeClient, storeBackend, h]

/-- Witness for C3 at the concrete one-object store. -/
theorem download_roundtrip_matches_buffer_witness :
    (download_file (storeClient "test-bucket" storeEx) FS.empty "a.txt"
        (some "out/c.bin") none).2.2 =
      Except.ok (resolveDownloadPath "a.txt" (some "out/c.bin") none) ∧
    FS.read (download_file (storeClient "test-bucket" storeEx) FS.empty "a.txt"
        (some "out/c.bin") none).1
      (resolveDownloadPath "a.txt" (some "out/c.bin") none) =
        some [104, 101, 108, 108, 111] ∧
    (download_file_to_buffer (storeClient "test-bucket" storeEx) "a.txt").2 =
      Except.ok [104, 101, 108, 108, 111] :=
  download_roundtrip_matches_buffer "test-bucket" storeEx "a.txt"
    [104, 101, 108, 108, 111] (by decide) FS.empty (some "out/c.bin") none

/-- A network-level backend failure: an `EndpointConnectionError` is a
`BotoCoreError`, not a `ClientError`. -/
def eNet : SdkError :=
  { isClientError := false, code := "EndpointConnectionError",
    msg := "Could not connect to the endpoint URL" }

/-- An access-denied backend failure, which is a `ClientError`. -/
def eDenied : SdkError :=
  { isClientError := true, code := "AccessDenied", msg := "Access Denied" }

/-- A client whose backend raises the same exception on every call. -/
def failClient (e : SdkError) : S3Client :=
  { bucket := "test-bucket",
    backend :=
      { paginate := fun _ _ _ _ => Except.error e,
        downloadFile := fun _ _ => Except.error e,
        getObject := fun _ _ => Except.error e,
        generatePresignedUrl := fun _ _ _ _ => Except.error e,
        headObject := fun _ _ => Except.error e } }

/-- C1 counterexample: a network-level backend failure (not a `ClientError`)
escapes `list_objects` as the SDK's error yet is never logged — the
operation's log holds no error record, refuting that every backend failure
escaping an operation has been logged exactly once at the point of
occurrence. -/
theorem network_error_escapes_unlogged_counterexample :
    (list_objects (failClient eNet) "" 1000 none).2 = Except.error eNet ∧
    errorPayloads (list_objects (failClient eNet) "" 1000 none).1 = [] ∧
    errorPayloads (list_objects (failClient eNet) "" 1000 none).1 ≠ [some eNet] :=
  ⟨rfl, rfl, by decide⟩

/-- Helper: the error payloads of a log made of one non-error record
followed, for client errors only, by the `log.exception` record. -/
theorem errorPayloads_cons_if (en0 : LogEntry) (h0 : isErrorLevel en0.level = false)
    (m : String) (e : SdkError) :
    errorPayloads (en0 :: (if e.isClientError then [excLog m e] else [])) =
      (if e.isClientError then [some e] else []) := by
  rcases en0 with ⟨lv, m0, x0⟩
  cases lv with
  | error => simp [isErrorLevel] at h0
  | debug => cases hic : e.isClientError <;> simp [errorPayloads, excLog, isErrorLevel, hic]
  | info => cases hic : e.isClientError <;> simp [errorPayloads, excLog, isErrorLevel, hic]

/-- C1 amended: for each of the five operations and every backend failure
raised inside it, the operation re-raises the SDK's native error unchanged
(no translation, no retry, no recovery); a `ClientError` is logged exactly
once, with the full exception attached, before being re-raised, while a
backend failure of any other kind (e.g. a network failure, a
`BotoCoreError`) propagates unchanged but without any error log record,
since the `except` clauses catch only `ClientError`. -/
theorem ops_log_and_reraise_client_errors (c : S3Client) (fs : FS)
    (pfx key method : String) (max_keys expiration : Nat)
    (delimiter local_path local_dir : Option String) (e : SdkError) :
    (c.backend.paginate c.bucket pfx max_keys (pyOrString delimiter "") = Except.error e →
      (list_objects c pfx max_keys delimiter).2 = Except.error e ∧
      errorPayloads (list_objects c pfx max_keys delimiter).1 =
        (if e.isClientError then [some e] else [])) ∧
    (c.backend.downloadFile c.bucket key = Except.error e →
      (download_file c fs key local_path local_dir).2.2 = Except.error e ∧
      errorPayloads (download_file c fs key local_path local_dir).2.1 =
        (if e.isClientError then [some e] else [])) ∧
    (c.backend.getObject c.bucket key = Except.error e →
      (download_file_to_buffer c key).2 = Except.error e ∧
      errorPayloads (download_file_to_buffer c key).1 =
        (if e.isClientError then [some e] else [])) ∧
    (c.backend.generatePresignedUrl method c.bucket key expiration = Except.error e →
      (get_presigned_url c key expiration method).2 = Except.error e ∧
      errorPayloads (get_presigned_url c key expiration method).1 =
        (if e.isClientError then [some e] else [])) ∧
    (c.backend.headObject c.bucket key = Except.error e →
      (get_object_metadata c key).2 = Except.error e ∧
      errorPayloads (get_object_metadata c key).1 =
        (if e.isClientError then [some e] else [])) := by
  refine ⟨?_, ?_, ?_, ?_, ?_⟩
  · intro h
    unfold list_objects
    rw [h]
    exact ⟨rfl, errorPayloads_cons_if (dbgLog "list_objects: prefix, max_keys") rfl _ e⟩
  · intro h
    unfold download_file
    rw [h]
    exact ⟨rfl, errorPayloads_cons_if (infoLog "download_file: key and destination") rfl _ e⟩
  · intro h
    unfold download_file_to_buffer
    rw [h]
    exact ⟨rfl, errorPayloads_cons_if (dbgLog "download_file_to_buffer: key") rfl _ e⟩
  · intro h
    unfold get_presigned_url
    rw [h]
    exact ⟨rfl, errorPayloads_cons_if (dbgLog "get_presigned_url: key, expiration") rfl _ e⟩
  · intro h
    unfold get_object_metadata
    rw [h]
    exact ⟨rfl, errorPayloads_cons_if (dbgLog "get_object_metadata: key") rfl _ e⟩

/-- Witness for the amended C1: every operation of a client whose backend
raises `AccessDenied` (a `ClientError`) on each call re-raises that very
error and logs it exactly once. -/
theorem ops_log_and_reraise_client_errors_witness :
    ((list_objects (failClient eDenied) "" 1000 none).2 = Except.error eDenied ∧
      errorPayloads (list_objects (failClient eDenied) "" 1000 none).1 =
        (if eDenied.isClientError then [some eDenied] else [])) ∧
    ((download_file (failClient eDenied) FS.empty "a.txt" none none).2.2 =
        Except.error eDenied ∧
      errorPayloads (download_file (failClient eDenied) FS.empty "a.txt" none none).2.1 =
        (if eDenied.isClientError then [some eDenied] else [])) ∧
    ((download_file_to_buffer (failClient eDenied) "a.txt").2 = Except.error eDenied ∧
      errorPayloads (download_file_to_buffer (failClient eDenied) "a.txt").1 =
        (if eDenied.isClientError then [some eDenied] else [])) ∧
    ((get_presigned_url (failClient eDenied) "a.txt" 3600 "get_object").2 =
        Except.error eDenied ∧
      errorPayloads (get_presigned_url (failClient eDenied) "a.txt" 3600 "get_object").1 =
        (if eDenied.isClientError then [some eDenied] else [])) ∧
    ((get_object_metadata (failClient eDenied) "a.txt").2 = Except.error eDenied ∧
      errorPayloads (get_object_metadata (failClient eDenied) "a.txt").1 =
        (if eDenied.isClientError then [some eDenied] else [])) := by
  have h := ops_log_and_reraise_client_errors (failClient eDenied) FS.empty ""
    "a.txt" "get_object" 1000 3600 none none none eDenied
  exact ⟨h.1 rfl, h.2.1 rfl, h.2.2.1 rfl, h.2.2.2.1 rfl, h.2.2.2.2 rfl⟩

end S3Spec
